import Mathlib

/-!
Verification of the content-part codec and streaming reader of the
`google-generative-ai-rs` client library (crate sources under `src/v1/`).

The development shallowly embeds the Rust sources:

* `src/v1/types/content_types.rs` — the `Part` discriminated union, its
  derived `Serialize` (serde's default externally tagged encoding of an
  enum) and its hand-written `Deserialize` impl (structural key probing
  over a `serde_json::Value::Object`);
* `src/v1/models/generative_models.rs` — `GenerativeModel::new`,
  `GenerativeModel::_prepare_request`, and the chunk loop of
  `GenerativeModel::generate_content_stream`.

JSON values are modelled by the inductive `Json` below; a
`serde_json::Map<String, Value>` is represented by its entry list in map
iteration order (serde_json's default map is a `BTreeMap`, so iteration
is ascending by key; encoders built here therefore keep object entries
sorted by key via `mkJsonObj`).  Rust panics (from `Option::unwrap` or
from indexing a `serde_json::Map` with a missing key) are a distinct
outcome from serde's typed `Error::custom` values, so decoding results
live in `Except DecodeError` with separate `custom` and `panic`
constructors.
-/

namespace GenAI

/-- A JSON value, as `serde_json::Value`: null, booleans, numbers, strings,
arrays and objects.  Numbers are irrelevant to every property proved here
(the codec only ever reads strings, objects and whole values), so they are
carried as integers.  An object carries its entries in map iteration
order. -/
inductive Json where
  | null
  | bool (b : Bool)
  | num (n : Int)
  | str (s : String)
  | arr (elems : List Json)
  | obj (fields : List (String × Json))

/-- Rust `Value::as_str`: `some` exactly on JSON strings. -/
def Json.as_str : Json → Option String
  | .str s => some s
  | _ => none

/-- Rust `Value::as_object`: `some` exactly on JSON objects, yielding the
underlying map (here: its entry list). -/
def Json.as_object : Json → Option (List (String × Json))
  | .obj fields => some fields
  | _ => none

/-- The outcome of running `<Part as Deserialize>::deserialize` on a value:
either a serde error built with `serde::de::Error::custom`, or a Rust
panic (the impl calls `Option::unwrap` and indexes `serde_json::Map`s,
both of which panic instead of returning an error). -/
inductive DecodeError where
  | custom (msg : String)
  | panic (msg : String)
deriving DecidableEq

/-- The error the spec calls `UnknownPartShape`: the one the source builds
at content_types.rs line 230 when no discriminator key matched. -/
def DecodeError.UnknownPartShape : DecodeError :=
  .custom "Invalid data structure."

/-- The error the spec calls `NotAnObject`: the one the source builds at
content_types.rs line 232 when the input value is not a JSON object. -/
def DecodeError.NotAnObject : DecodeError :=
  .custom "Expected JSON object"

/-- Rust `Option::unwrap`, as it behaves inside `Except DecodeError`:
panics (with the standard message) on `None`. -/
def optionUnwrap {α : Type} : Option α → Except DecodeError α
  | some a => .ok a
  | none => .error (.panic "called Option::unwrap on a None value")

/-- Indexing a `serde_json::Map<String, Value>` (`map[key]`), which panics
when the key is absent. -/
def mapIndex (fields : List (String × Json)) (k : String) : Except DecodeError Json :=
  match fields.find? (fun e => e.1 == k) with
  | some e => .ok e.2
  | none => .error (.panic "no entry found for key")

/-- Content part interface if the part represents a text string
(content_types.rs lines 237-242). -/
structure TextPart where
  text : String

/-- Interface for sending an image (content_types.rs lines 251-259). -/
structure GenerativeContentBlob where
  mime_type : String
  data : String

/-- Content part interface if the part represents an image
(content_types.rs lines 244-249). -/
structure InlineDataPart where
  inline_data : GenerativeContentBlob

/-- A predicted function call returned from the model
(content_types.rs lines 268-274).  The Rust `args` field is a
`HashMap<String, serde_json::Value>`; it is represented by its entry
list. -/
structure FunctionCall where
  name : String
  args : List (String × Json)

/-- Content part wrapper for a function call (content_types.rs lines 261-266). -/
structure FunctionCallPart where
  function_call : FunctionCall

/-- The result output from a function call (content_types.rs lines 283-289). -/
structure FunctionResponse where
  name : String
  response : List (String × Json)

/-- Content part wrapper for a function response (content_types.rs lines 276-281). -/
structure FunctionResponsePart where
  function_response : FunctionResponse

/-- Data pointing to a file uploaded with the Files API
(content_types.rs lines 298-304). -/
structure FileData where
  mime_type : String
  file_uri : String

/-- Content part wrapper for file data (content_types.rs lines 291-296). -/
structure FileDataPart where
  file_data : FileData

/-- Content part - includes text or image part types
(content_types.rs lines 147-155). -/
inductive Part where
  | TextPart (p : TextPart)
  | InlineDataPart (p : InlineDataPart)
  | FunctionCallPart (p : FunctionCallPart)
  | FunctionResponsePart (p : FunctionResponsePart)
  | FileDataPart (p : FileDataPart)

/-- Body of the `key.eq("text")` arm of the decode loop
(content_types.rs lines 166-170): `value.as_str().unwrap()`. -/
def decodeTextKey (value : Json) : Except DecodeError Part := do
  let s ← optionUnwrap value.as_str
  return Part.TextPart { text := s }

/-- Body of the `key.eq("inlineData")` arm (content_types.rs lines 172-180):
`value.as_object().unwrap()`, then `obj["mimeType"].as_str().unwrap()` and
`obj["data"].as_str().unwrap()`. -/
def decodeInlineDataKey (value : Json) : Except DecodeError Part := do
  let inline_data ← optionUnwrap value.as_object
  let mime_type ← optionUnwrap (← mapIndex inline_data "mimeType").as_str
  let data ← optionUnwrap (← mapIndex inline_data "data").as_str
  return Part.InlineDataPart { inline_data := { mime_type, data } }

/-- Body of the `key.eq("functionCall")` arm (content_types.rs lines 182-196):
`value.as_object().unwrap()`, the `args` map is materialised first
(`obj["args"].as_object().unwrap()`, its entries inserted into a fresh
`HashMap`, which for a map's unique keys holds exactly those entries),
then `obj["name"].as_str().unwrap()`. -/
def decodeFunctionCallKey (value : Json) : Except DecodeError Part := do
  let function_call ← optionUnwrap value.as_object
  let args ← optionUnwrap (← mapIndex function_call "args").as_object
  let name ← optionUnwrap (← mapIndex function_call "name").as_str
  return Part.FunctionCallPart { function_call := { name, args } }

/-- Body of the `key.eq("functionResponse")` arm
(content_types.rs lines 198-216), analogous to the `functionCall` arm with
the `response` map in place of `args`. -/
def decodeFunctionResponseKey (value : Json) : Except DecodeError Part := do
  let function_response ← optionUnwrap value.as_object
  let response ← optionUnwrap (← mapIndex function_response "response").as_object
  let name ← optionUnwrap (← mapIndex function_response "name").as_str
  return Part.FunctionResponsePart { function_response := { name, response } }

/-- Body of the `key.eq("fileData")` arm (content_types.rs lines 218-227):
`value.as_object().unwrap()`, then `obj["mimeType"].as_str().unwrap()` and
`obj["fileUri"].as_str().unwrap()`. -/
def decodeFileDataKey (value : Json) : Except DecodeError Part := do
  let file_data ← optionUnwrap value.as_object
  let mime_type ← optionUnwrap (← mapIndex file_data "mimeType").as_str
  let file_uri ← optionUnwrap (← mapIndex file_data "fileUri").as_str
  return Part.FileDataPart { file_data := { mime_type, file_uri } }

/-- The `for (key, value) in obj.iter()` loop of
`<Part as Deserialize>::deserialize` (content_types.rs lines 165-230):
each entry's key is tested against the five discriminator keys in the
source's textual order; the first entry that matches any of them decides
the result, a non-matching entry is skipped, and an exhausted loop falls
through to `Error::custom("Invalid data structure.")`. -/
def deserializeFields : List (String × Json) → Except DecodeError Part
  | [] => .error DecodeError.UnknownPartShape
  | (key, value) :: rest =>
    if key = "text" then decodeTextKey value
    else if key = "inlineData" then decodeInlineDataKey value
    else if key = "functionCall" then decodeFunctionCallKey value
    else if key = "functionResponse" then decodeFunctionResponseKey value
    else if key = "fileData" then decodeFileDataKey value
    else deserializeFields rest

/-- Function `<Part as Deserialize>::deserialize` (content_types.rs lines
157-235): deserialize the input into a `serde_json::Value`, then match on
it — objects go through the key-probing loop, everything else errors with
`Error::custom("Expected JSON object")`. -/
def Part.deserialize : Json → Except DecodeError Part
  | .obj fields => deserializeFields fields
  | _ => .error DecodeError.NotAnObject

/-- The five discriminator keys, tested by the decode loop body in this
textual order (content_types.rs lines 166, 172, 182, 198, 218). -/
def isDiscriminatorKey (k : String) : Bool :=
  k == "text" || k == "inlineData" || k == "functionCall" ||
    k == "functionResponse" || k == "fileData"

/-- The decoder a discriminator key selects: one pass of the loop body at
an entry whose key matches one of the five tests.  Only meaningful when
`isDiscriminatorKey k` holds; the final else branch is never reached
then. -/
def decodeDiscriminator (k : String) (v : Json) : Except DecodeError Part :=
  if k = "text" then decodeTextKey v
  else if k = "inlineData" then decodeInlineDataKey v
  else if k = "functionCall" then decodeFunctionCallKey v
  else if k = "functionResponse" then decodeFunctionResponseKey v
  else if k = "fileData" then decodeFileDataKey v
  else .error DecodeError.UnknownPartShape

/-- Whether the decoder selected by discriminator key `k` accepts payload
`v` (no serde error and no panic): the payload is structurally well
formed for that key. -/
def decodeKeyOk (k : String) (v : Json) : Bool :=
  match decodeDiscriminator k v with
  | .ok _ => true
  | .error _ => false

/-- Rust's `Ord` on strings, strictly: lexicographic comparison of the
character sequences (for the ASCII keys appearing on this wire, identical
to Rust's byte-wise UTF-8 comparison).  This is the order a
`BTreeMap<String, _>` — serde_json's default map — keeps its keys in. -/
def charListLt : List Char → List Char → Bool
  | [], [] => false
  | [], _ :: _ => true
  | _ :: _, [] => false
  | a :: as, b :: bs =>
    if a.toNat < b.toNat then true
    else if b.toNat < a.toNat then false
    else charListLt as bs

/-- String version of `charListLt`. -/
def stringLt (s1 s2 : String) : Bool :=
  charListLt s1.data s2.data

/-- Insertion of one entry into a `serde_json::Map<String, Value>`
(`BTreeMap::insert`): entries stay in ascending key order and an existing
key's value is overwritten. -/
def sortedInsertField (e : String × Json) : List (String × Json) → List (String × Json)
  | [] => [e]
  | f :: rest =>
    if stringLt e.1 f.1 then e :: f :: rest
    else if e.1 = f.1 then e :: rest
    else f :: sortedInsertField e rest

/-- A `serde_json::Value::Object` built by inserting the given entries, in
order, into an empty map — how `serde_json` materialises any serialized
struct or map into a `Value` (its default map is a `BTreeMap`, so the
result iterates in ascending key order however the entries arrived). -/
def mkJsonObj (entries : List (String × Json)) : Json :=
  .obj (entries.foldl (fun acc e => sortedInsertField e acc) [])

/-- Derived `Serialize` of `TextPart` (content_types.rs line 238, with
`serde(rename_all = "camelCase")`): the object `{"text": ...}` with the
brace written literally on the wire. -/
def TextPart.serialize (p : TextPart) : Json :=
  mkJsonObj [("text", .str p.text)]

/-- Derived `Serialize` of `GenerativeContentBlob` (content_types.rs line
252): fields `mime_type` and `data` serialized in declaration order under
their camelCase names. -/
def GenerativeContentBlob.serialize (b : GenerativeContentBlob) : Json :=
  mkJsonObj [("mimeType", .str b.mime_type), ("data", .str b.data)]

/-- Derived `Serialize` of `InlineDataPart` (content_types.rs line 245):
its single field under the key `inlineData`. -/
def InlineDataPart.serialize (p : InlineDataPart) : Json :=
  mkJsonObj [("inlineData", p.inline_data.serialize)]

/-- Derived `Serialize` of `FunctionCall` (content_types.rs line 269):
`name`, then the `args` HashMap serialized as a JSON object. -/
def FunctionCall.serialize (c : FunctionCall) : Json :=
  mkJsonObj [("name", .str c.name), ("args", mkJsonObj c.args)]

/-- Derived `Serialize` of `FunctionCallPart` (content_types.rs line 262):
its single field under the key `functionCall`. -/
def FunctionCallPart.serialize (p : FunctionCallPart) : Json :=
  mkJsonObj [("functionCall", p.function_call.serialize)]

/-- Derived `Serialize` of `FunctionResponse` (content_types.rs line 284). -/
def FunctionResponse.serialize (r : FunctionResponse) : Json :=
  mkJsonObj [("name", .str r.name), ("response", mkJsonObj r.response)]

/-- Derived `Serialize` of `FunctionResponsePart` (content_types.rs line
277): its single field under the key `functionResponse`. -/
def FunctionResponsePart.serialize (p : FunctionResponsePart) : Json :=
  mkJsonObj [("functionResponse", p.function_response.serialize)]

/-- Derived `Serialize` of `FileData` (content_types.rs line 299). -/
def FileData.serialize (d : FileData) : Json :=
  mkJsonObj [("mimeType", .str d.mime_type), ("fileUri", .str d.file_uri)]

/-- Derived `Serialize` of `FileDataPart` (content_types.rs line 292):
its single field under the key `fileData`. -/
def FileDataPart.serialize (p : FileDataPart) : Json :=
  mkJsonObj [("fileData", p.file_data.serialize)]

/-- Derived `Serialize` of the `Part` enum (content_types.rs line 148).
The enum carries no serde attribute, so serde's default representation
for enums applies: externally tagged — a newtype variant `V(x)`
serializes as the single-entry object mapping the variant's own name
`"V"` to the serialization of `x`.  Note the tag is the Rust variant name
(`"TextPart"`, `"InlineDataPart"`, ...), not the lowercase discriminator
key the hand-written `Deserialize` impl probes for. -/
def Part.serialize : Part → Json
  | .TextPart p => mkJsonObj [("TextPart", p.serialize)]
  | .InlineDataPart p => mkJsonObj [("InlineDataPart", p.serialize)]
  | .FunctionCallPart p => mkJsonObj [("FunctionCallPart", p.serialize)]
  | .FunctionResponsePart p => mkJsonObj [("FunctionResponsePart", p.serialize)]
  | .FileDataPart p => mkJsonObj [("FileDataPart", p.serialize)]

/-- Rust `str::split("\n\n")` specialised to the two-newline separator used
by the chunk loop of `generate_content_stream` (generative_models.rs line
146): the pieces of the input between non-overlapping occurrences of the
separator, found left to right; empty pieces are kept.  The second
argument accumulates the current piece in reverse. -/
def splitOnBlankLine : List Char → List Char → List (List Char)
  | [], acc => [acc.reverse]
  | [c], acc => [(c :: acc).reverse]
  | c1 :: c2 :: rest, acc =>
    if c1 = '\n' ∧ c2 = '\n' then acc.reverse :: splitOnBlankLine rest []
    else splitOnBlankLine (c2 :: rest) (c1 :: acc)

/-- The chunk loop of `GenerativeModel::generate_content_stream`
(generative_models.rs lines 142-149), given the utf8-decoded byte chunks
the transport delivered before signalling end-of-data: each chunk is
split on `"\n\n"` by itself, and every resulting fragment is passed to
`dbg!`.  The function returns the fragments in the order they were
printed — the loop keeps no state between chunks, so the fragment list is
just the concatenation of the per-chunk splits. -/
def generate_content_stream_printed (chunks : List (List Char)) : List (List Char) :=
  (chunks.map (fun chunk => splitOnBlankLine chunk [])).flatten

/-- Modelled from the spec: the role of a `Content`.  The snapshot's
content_types.rs does not contain the `Content` and `Role` items that
generative_models.rs, requests.rs and caching.rs import from it; spec
section 3 fixes the roles as "user"|"model", and `_prepare_request`
(generative_models.rs line 62) constructs `Role::User`. -/
inductive Role where
  | User
  | Model

/-- Modelled from the spec: `Content := { role, parts }` with an ordered
`parts` sequence (spec sections 3 and 6), the item generative_models.rs
imports from content_types.rs but absent from the snapshot.  Its shape is
also pinned by the struct literal at generative_models.rs lines 61-64. -/
structure Content where
  role : Role
  parts : List Part

/-- Harm categories that would cause prompts or candidates to be blocked
(safety_types.rs lines 2-20). -/
inductive HarmCategory where
  | HarmCategoryUnspecified
  | HarmCategoryHateSpeech
  | HarmCategorySexuallyExplicit
  | HarmCategoryHarassment
  | HarmCategoryDangerousContent

/-- HarmProbability of a piece of content (safety_types.rs lines 22-48). -/
inductive HarmProbability where
  | HarmProbabilityUnspecified
  | Negligible
  | Low
  | Medium
  | High

/-- Threshold above which a prompt or candidate will be blocked
(safety_types.rs lines 50-70). -/
inductive HarmBlockThreshold where
  | HarmBlockThresholdUnspecified
  | BlockLowAndAbove
  | BlockMediumAndAbove
  | BlockOnlyHigh
  | BlockNone

/-- Safety setting sent as part of request parameters
(safety_types.rs lines 72-77). -/
structure SafetySetting where
  category : HarmCategory
  threshold : HarmBlockThreshold

/-- SafetyRating of a piece of content (responses.rs lines 87-101). -/
structure SafetyRating where
  category : HarmCategory
  probability : HarmProbability
  blocked : Option Bool

/-- FinishReason: why the model stopped generating tokens
(responses.rs lines 54-85). -/
inductive FinishReason where
  | FinishReasonUnspecified
  | Stop
  | MaxTokens
  | Safety
  | Recitation
  | Language
  | Other

/-- CitationSource (responses.rs lines 111-129); `u32` indices are carried
as naturals. -/
structure CitationSource where
  start_index : Option Nat
  end_index : Option Nat
  uri : Option String
  license : Option String

/-- CitationMetadata (responses.rs lines 103-109). -/
structure CitationMetadata where
  citation_sources : List CitationSource

/-- BlockReason: why a prompt was blocked (responses.rs lines 146-161). -/
inductive BlockReason where
  | BlockedReasonUnspecified
  | Safety
  | Other

/-- PromptFeedback (responses.rs lines 131-144). -/
structure PromptFeedback where
  block_reason : BlockReason
  safety_ratings : List SafetyRating
  block_reason_message : Option String

/-- UsageMetadata (responses.rs lines 163-179); `u32` counts carried as
naturals. -/
structure UsageMetadata where
  prompt_token_count : Nat
  candidates_token_count : Nat
  total_token_count : Nat
  cached_content_token_count : Option Nat

/-- Candidate: one response candidate generated from the model
(responses.rs lines 28-52). -/
structure Candidate where
  index : Nat
  content : Content
  finish_reason : Option FinishReason
  safety_ratings : List SafetyRating
  citation_metadata : Option CitationMetadata
  token_count : Option Nat

/-- GenerateContentResponse (responses.rs lines 6-26): the shape of one
decoded response object — what the spec calls a `StreamEvent` when it is
recovered from the incremental stream. -/
structure GenerateContentResponse where
  candidates : List Candidate
  prompt_feedback : Option PromptFeedback
  usage_metadata : UsageMetadata

/-- The sequence of `StreamEvent`s that `generate_content_stream` decodes
and yields to its caller.  The loop body (generative_models.rs lines
143-149) only passes each fragment to `dbg!`; it never parses a fragment
as JSON, never constructs a `GenerateContentResponse`, and the function's
return type is `Result<()>` — so the decoded-event sequence is empty for
every input stream. -/
def generate_content_stream_events (_chunks : List (List Char)) :
    List GenerateContentResponse :=
  []

/-- The value `generate_content_stream` returns once the transport signals
end-of-data (generative_models.rs line 151): `Ok(())`.  No error value is
constructed for buffered leftovers — the loop keeps no buffer, and no
truncation-style error exists anywhere in the function. -/
def generate_content_stream_return (_chunks : List (List Char)) : Except String Unit :=
  Except.ok ()

/-- An `f32` value carried opaquely by its 32-bit pattern: the sources only
store and forward these configuration fields, never compute with them, so
no floating-point arithmetic needs to be modelled. -/
structure F32 where
  bits : Nat

/-- Output response mimetype (generation_types.rs lines 55-61). -/
inductive MimeType where
  | TextPlain
  | ApplicationJson

/-- SchemaType: the OpenAPI data types (schema.rs lines 65-73). -/
inductive SchemaType where
  | String
  | Number
  | Integer
  | Boolean
  | Array
  | Object

/-- Schema for input/output data formats (schema.rs lines 7-62), recursive
through `items` (`Option<Box<Schema>>`) and `properties`
(`Option<HashMap<String, Schema>>`, carried as an entry list); `example`
is a `serde_json::Value`.  Declared as a single-constructor inductive
because of the recursion. -/
inductive Schema where
  | mk (type : SchemaType) (format : Option String) (description : Option String)
      (nullable : Option Bool) (enum : Option (List String)) (items : Option Schema)
      (properties : Option (List (String × Schema))) (required : Option (List String))
      (example_ : Option Json)

/-- GenerationConfig (generation_types.rs lines 5-53); `u32`/`u128` counts
carried as naturals, `f32` fields as opaque bit patterns. -/
structure GenerationConfig where
  candidate_count : Option Nat
  stop_sequences : Option (List String)
  max_output_tokens : Option Nat
  temperature : Option F32
  top_p : Option F32
  top_k : Option F32
  response_mime_type : Option MimeType
  response_schema : Option Schema

/-- FunctionParameterType: the OpenAPI data types
(content_types.rs lines 57-77). -/
inductive FunctionParameterType where
  | String
  | Number
  | Integer
  | Boolean
  | Array
  | Object

mutual
/-- FunctionParameters (content_types.rs lines 41-55): mutually recursive
with FunctionParametersProperty through its `properties` HashMap (carried
as an entry list), so both are single-constructor inductives. -/
inductive FunctionParameters where
  | mk (type : FunctionParameterType)
      (properties : List (String × FunctionParametersProperty))
      (description : Option String) (required : Option (List String))
/-- FunctionParametersProperty (content_types.rs lines 79-105): recursive
back into FunctionParameters through `items` and `properties`. -/
inductive FunctionParametersProperty where
  | mk (type : Option String) (format : Option String) (description : Option String)
      (nullable : Option Bool) (items : Option FunctionParameters)
      (enum : Option (List String)) (properties : List (String × FunctionParameters))
      (required : Option (List String))
end

/-- FunctionDeclaration (content_types.rs lines 13-39). -/
structure FunctionDeclaration where
  name : String
  description : Option String
  parameters : Option FunctionParameters

/-- Tool: a tool the model can call (content_types.rs lines 6-11). -/
structure Tool where
  function_declarations : Option (List FunctionDeclaration)

/-- FunctionCallingMode (content_types.rs lines 119-137). -/
inductive FunctionCallingMode where
  | ModeUnspecified
  | Auto
  | Any
  | NoneMode

/-- FunctionCallingConfig (content_types.rs lines 113-117). -/
structure FunctionCallingConfig where
  mode : Option FunctionCallingMode
  allowed_function_names : Option (List String)

/-- ToolConfig (content_types.rs lines 107-111). -/
structure ToolConfig where
  function_calling_config : FunctionCallingConfig

/-- ExpireTimeOrTTL (caching.rs lines 54-62). -/
structure ExpireTimeOrTTL where
  expire_time : String
  ttl : String

/-- CachedContentUsageMetadata (caching.rs lines 64-69); `u32` carried as a
natural. -/
structure CachedContentUsageMetadata where
  total_token_count : Nat

/-- CachedContent (caching.rs lines 3-52). -/
structure CachedContent where
  expiration : ExpireTimeOrTTL
  name : Option String
  display_name : Option String
  model : String
  system_instruction : Content
  contents : List Content
  tools : Option (List Tool)
  tool_config : Option ToolConfig
  create_time : String
  update_time : String
  usage_metadata : CachedContentUsageMetadata

/-- ApiVersion of the API endpoint (requests.rs lines 32-37). -/
inductive ApiVersion where
  | V1
  | V1Beta

/-- ApiVersion::to_str (requests.rs lines 39-46). -/
def ApiVersion.to_str : ApiVersion → String
  | .V1 => "v1"
  | .V1Beta => "v1beta"

/-- RequestOptions (requests.rs lines 12-30); the custom-headers HashMap is
carried as an entry list, the `u64` timeout as a natural. -/
structure RequestOptions where
  timeout : Option Nat
  api_version : Option ApiVersion
  api_client : Option String
  base_url : Option String
  custom_headers : Option (List (String × String))

/-- Implementation of `Default` for RequestOptions (requests.rs lines
48-58).  `ApiVersion`'s derived `Default` picks the variant marked
`#[default]`, which is `V1Beta`. -/
def RequestOptions.default : RequestOptions :=
  { timeout := none
    api_version := some ApiVersion.V1Beta
    api_client := none
    base_url := some "https://generativelanguage.googleapis.com"
    custom_headers := none }

/-- ModelParams (model.rs lines 9-31). -/
structure ModelParams where
  model : String
  safety_settings : Option (List SafetySetting)
  generation_config : Option GenerationConfig
  tools : Option (List Tool)
  tool_config : Option ToolConfig
  system_instruction : Option Content
  cached_content : Option CachedContent

/-- ModelParams::new (model.rs lines 33-44): the given model name and every
other field `None`. -/
def ModelParams.new (model : String) : ModelParams :=
  { model
    safety_settings := none
    generation_config := none
    tools := none
    tool_config := none
    system_instruction := none
    cached_content := none }

/-- Rust `str::contains(char)`: whether any character of the string equals
the given character (used by `GenerativeModel::new` at
generative_models.rs line 38). -/
def strContainsChar (s : String) (c : Char) : Bool :=
  s.data.any (fun a => a == c)

/-- GenerativeModel (generative_models.rs lines 18-30). -/
structure GenerativeModel where
  api_key : String
  model : String
  request_options : RequestOptions
  generation_config : Option GenerationConfig
  safety_settings : Option (List SafetySetting)
  tools : Option (List Tool)
  tool_config : Option ToolConfig
  system_instruction : Option Content
  cached_content : Option CachedContent

/-- GenerativeModel::new (generative_models.rs lines 33-55): prefix the
model name with "models/" unless it already contains a '/', default the
request options when absent, and store every other parameter unchanged. -/
def GenerativeModel.new (api_key : String) (model_params : ModelParams)
    (request_options : Option RequestOptions) : GenerativeModel :=
  let model :=
    if strContainsChar model_params.model '/' then model_params.model
    else "models/" ++ model_params.model
  { api_key
    model
    generation_config := model_params.generation_config
    safety_settings := model_params.safety_settings
    request_options := request_options.getD RequestOptions.default
    tools := model_params.tools
    tool_config := model_params.tool_config
    system_instruction := model_params.system_instruction
    cached_content := model_params.cached_content }

/-- GenerateContentRequest (requests.rs lines 61-115). -/
structure GenerateContentRequest where
  model : String
  contents : List Content
  generation_config : Option GenerationConfig
  safety_settings : Option (List SafetySetting)
  tools : Option (List Tool)
  tool_config : Option ToolConfig
  system_instruction : Option Content
  cached_content : Option CachedContent

/-- GenerativeModel::_prepare_request (generative_models.rs lines 58-72):
build a GenerateContentRequest whose `contents` is the single user-role
Content wrapping the given parts, every other field cloned from `self`.
The Rust function takes `&self` and only clones, so the model value
itself is untouched — in this pure embedding it is simply not part of the
output. -/
def GenerativeModel._prepare_request (self : GenerativeModel) (requests : List Part) :
    GenerateContentRequest :=
  { model := self.model
    contents := [{ role := Role.User, parts := requests }]
    generation_config := self.generation_config
    safety_settings := self.safety_settings
    tools := self.tools
    tool_config := self.tool_config
    system_instruction := self.system_instruction
    cached_content := self.cached_content }

/-! ### Helper lemmas about the decode loop -/

/-- An entry whose key matches none of the five discriminator tests is
skipped by the decode loop. -/
theorem deserializeFields_cons_skip (e : String × Json) (rest : List (String × Json))
    (h : isDiscriminatorKey e.1 = false) :
    deserializeFields (e :: rest) = deserializeFields rest := by
  obtain ⟨k, v⟩ := e
  simp only [isDiscriminatorKey, Bool.or_eq_false_iff, beq_eq_false_iff_ne, ne_eq] at h
  obtain ⟨⟨⟨⟨h1, h2⟩, h3⟩, h4⟩, h5⟩ := h
  simp only [deserializeFields, if_neg h1, if_neg h2, if_neg h3, if_neg h4, if_neg h5]

/-- An entry whose key is a discriminator key decides the decode loop's
result: the loop returns from this iteration, whatever follows. -/
theorem deserializeFields_cons_match (e : String × Json) (rest : List (String × Json))
    (h : isDiscriminatorKey e.1 = true) :
    deserializeFields (e :: rest) = decodeDiscriminator e.1 e.2 := by
  obtain ⟨k, v⟩ := e
  simp only [isDiscriminatorKey, Bool.or_eq_true, beq_iff_eq] at h
  rcases h with ((((h | h) | h) | h) | h) <;> subst h <;> rfl

/-- When `decodeKeyOk` accepts a discriminator key's payload, the selected
decoder succeeds with some part. -/
theorem decodeKeyOk_spec (k : String) (v : Json) (h : decodeKeyOk k v = true) :
    ∃ p, decodeDiscriminator k v = Except.ok p := by
  cases hv : decodeDiscriminator k v with
  | ok p => exact ⟨p, rfl⟩
  | error e => simp [decodeKeyOk, hv] at h

/-- The decode loop ignores every entry whose key is not a discriminator
key: decoding an object is decoding the subsequence of its
discriminator-keyed entries. -/
theorem deserializeFields_filter (fields : List (String × Json)) :
    deserializeFields fields =
      deserializeFields (fields.filter (fun e => isDiscriminatorKey e.1)) := by
  induction fields with
  | nil => rfl
  | cons e rest ih =>
    cases hd : isDiscriminatorKey e.1 with
    | true =>
      rw [List.filter_cons_of_pos (by simp [hd]), deserializeFields_cons_match e rest hd,
        deserializeFields_cons_match e _ hd]
    | false =>
      rw [List.filter_cons_of_neg (by simp [hd]), deserializeFields_cons_skip e rest hd]
      exact ih

/-- The decode loop succeeds when every discriminator-keyed entry of the
object is well formed and at least one exists. -/
theorem deserializeFields_ok (fields : List (String × Json))
    (hwf : ∀ e ∈ fields, isDiscriminatorKey e.1 = true → decodeKeyOk e.1 e.2 = true)
    (hex : ∃ e ∈ fields, isDiscriminatorKey e.1 = true) :
    ∃ p, deserializeFields fields = Except.ok p := by
  induction fields with
  | nil =>
    obtain ⟨e, he, -⟩ := hex
    cases he
  | cons e rest ih =>
    cases hd : isDiscriminatorKey e.1 with
    | true =>
      rw [deserializeFields_cons_match e rest hd]
      exact decodeKeyOk_spec e.1 e.2 (hwf e (List.mem_cons_self e rest) hd)
    | false =>
      rw [deserializeFields_cons_skip e rest hd]
      refine ih (fun x hx h => hwf x (List.mem_cons_of_mem e hx) h) ?_
      obtain ⟨x, hx, hdx⟩ := hex
      rcases List.mem_cons.mp hx with rfl | hx
      · rw [hd] at hdx
        cases hdx
      · exact ⟨x, hx, hdx⟩

/-! ### The claims -/

/-- C1: the round-trip `Decode(Encode(v)) = v` FAILS for every variant of
`Part`.  The derived `Serialize` is externally tagged, so every encoded
part is the single-entry object keyed by the Rust variant name
(`"TextPart"`, `"InlineDataPart"`, ...); the hand-written `Deserialize`
probes only for the five lowercase discriminator keys, never matches the
tag, and falls through to `Error::custom("Invalid data structure.")` —
the error the spec calls `UnknownPartShape`. -/
theorem decode_encode_roundtrip_fails (p : Part) :
    Part.deserialize p.serialize = Except.error DecodeError.UnknownPartShape := by
  cases p <;> rfl

/-- C5: `Part` encoding is indeed a total function producing exactly one
object shape per variant — but the shape is NOT the claimed
`{"text": ...}` / `{"inlineData": \x7b...\x7d}` family.  Because the enum's
derived `Serialize` is externally tagged, each variant's fields are
wrapped one level deeper under the Rust variant name; only the inner
structs (`TextPart`, `InlineDataPart`, ... on their own, final two
conjuncts) produce the claimed shapes.  Object entries appear in
ascending key order, as serde_json's `BTreeMap`-backed maps iterate. -/
theorem serialize_variant_shapes (text mime data name uri : String)
    (args resp : List (String × Json)) :
    Part.serialize (.TextPart ⟨text⟩) =
      Json.obj [("TextPart", Json.obj [("text", Json.str text)])] ∧
    Part.serialize (.InlineDataPart ⟨⟨mime, data⟩⟩) =
      Json.obj [("InlineDataPart", Json.obj [("inlineData",
        Json.obj [("data", Json.str data), ("mimeType", Json.str mime)])])] ∧
    Part.serialize (.FunctionCallPart ⟨⟨name, args⟩⟩) =
      Json.obj [("FunctionCallPart", Json.obj [("functionCall",
        Json.obj [("args", mkJsonObj args), ("name", Json.str name)])])] ∧
    Part.serialize (.FunctionResponsePart ⟨⟨name, resp⟩⟩) =
      Json.obj [("FunctionResponsePart", Json.obj [("functionResponse",
        Json.obj [("name", Json.str name), ("response", mkJsonObj resp)])])] ∧
    Part.serialize (.FileDataPart ⟨⟨mime, uri⟩⟩) =
      Json.obj [("FileDataPart", Json.obj [("fileData",
        Json.obj [("fileUri", Json.str uri), ("mimeType", Json.str mime)])])] ∧
    TextPart.serialize ⟨text⟩ = Json.obj [("text", Json.str text)] ∧
    InlineDataPart.serialize ⟨⟨mime, data⟩⟩ =
      Json.obj [("inlineData",
        Json.obj [("data", Json.str data), ("mimeType", Json.str mime)])] :=
  ⟨rfl, rfl, rfl, rfl, rfl, rfl, rfl⟩

/-- C4: a discriminator key with a structurally malformed payload does NOT
produce a typed `MalformedField` error — the decoder panics.  A `"text"`
key mapped to a number panics in `as_str().unwrap()`; an `"inlineData"`
key mapped to a non-object panics in `as_object().unwrap()`; an
`"inlineData"` object missing `"mimeType"` panics in the map index.  No
`MalformedField`-like error value exists anywhere in the impl. -/
theorem malformed_payload_panics :
    Part.deserialize (Json.obj [("text", Json.num 5)]) =
      Except.error (.panic "called Option::unwrap on a None value") ∧
    Part.deserialize (Json.obj [("inlineData", Json.str "zzz")]) =
      Except.error (.panic "called Option::unwrap on a None value") ∧
    Part.deserialize (Json.obj [("inlineData", Json.obj [("data", Json.str "aGk=")])]) =
      Except.error (.panic "no entry found for key") :=
  ⟨rfl, rfl, rfl⟩

/-- C6: decoding an object none of whose keys is a discriminator key fails
with the error the spec calls `UnknownPartShape`
(`Error::custom("Invalid data structure.")`), never a default variant. -/
theorem no_discriminator_key_unknown_shape (fields : List (String × Json))
    (h : ∀ e ∈ fields, isDiscriminatorKey e.1 = false) :
    Part.deserialize (Json.obj fields) = Except.error DecodeError.UnknownPartShape := by
  show deserializeFields fields = _
  induction fields with
  | nil => rfl
  | cons e rest ih =>
    rw [deserializeFields_cons_skip e rest (h e (List.mem_cons_self e rest))]
    exact ih (fun x hx => h x (List.mem_cons_of_mem e hx))

/-- Witness for C6 at a concrete object with two non-discriminator keys. -/
theorem no_discriminator_key_unknown_shape_witness :
    Part.deserialize (Json.obj [("role", Json.str "user"), ("foo", Json.null)]) =
      Except.error DecodeError.UnknownPartShape :=
  no_discriminator_key_unknown_shape
    [("role", Json.str "user"), ("foo", Json.null)] (by decide)

/-- C3 counterexample: an object carrying both `"inlineData"` and `"text"`
(both well formed, in map iteration order) decodes to the
`InlineDataPart`, not to the `TextPart` that the claimed fixed priority
order `{text, inlineData, ...}` demands — the loop takes the first key in
the object's iteration order that matches any discriminator, and
serde_json's sorted maps iterate `"inlineData"` before `"text"`. -/
theorem priority_order_counterexample :
    Part.deserialize (Json.obj [("inlineData",
        Json.obj [("data", Json.str "aGk="), ("mimeType", Json.str "image/png")]),
      ("text", Json.str "hi")]) =
      Except.ok (Part.InlineDataPart { inline_data :=
        { mime_type := "image/png", data := "aGk=" } }) ∧
    Part.deserialize (Json.obj [("inlineData",
        Json.obj [("data", Json.str "aGk="), ("mimeType", Json.str "image/png")]),
      ("text", Json.str "hi")]) ≠
      Except.ok (Part.TextPart { text := "hi" }) := by
  refine ⟨rfl, fun h => ?_⟩
  exact Part.noConfusion (Except.ok.inj h)

/-- C3 amended: with several discriminator keys present, the decoder
deterministically returns the variant of the FIRST discriminator key in
the object's key iteration order (for serde_json's default `BTreeMap`
maps: the lexicographically smallest discriminator key present),
regardless of everything after it; the claimed fixed priority list only
orders the five tests applied to a single key. -/
theorem first_discriminator_key_decides (pre : List (String × Json)) (k : String)
    (v : Json) (post : List (String × Json))
    (hpre : ∀ e ∈ pre, isDiscriminatorKey e.1 = false)
    (hk : isDiscriminatorKey k = true) :
    Part.deserialize (Json.obj (pre ++ (k, v) :: post)) = decodeDiscriminator k v := by
  show deserializeFields (pre ++ (k, v) :: post) = _
  induction pre with
  | nil => exact deserializeFields_cons_match (k, v) post hk
  | cons e rest ih =>
    rw [List.cons_append,
      deserializeFields_cons_skip e _ (hpre e (List.mem_cons_self e rest))]
    exact ih (fun x hx => hpre x (List.mem_cons_of_mem e hx))

/-- Witness for the amended C3 at a concrete object: a non-discriminator
key, then `"text"`, then a trailing `"fileData"` that is ignored. -/
theorem first_discriminator_key_decides_witness :
    Part.deserialize (Json.obj [("aaa", Json.null), ("text", Json.str "x"),
        ("zzz", Json.num 1)]) =
      decodeDiscriminator "text" (Json.str "x") :=
  first_discriminator_key_decides [("aaa", Json.null)] "text" (Json.str "x")
    [("zzz", Json.num 1)] (by decide) (by decide)

/-- C9 counterexample: an object that DOES contain a discriminator key with
a well-formed payload (`"text": "hi"`) nevertheless fails to decode,
because the malformed recognized key `"fileData"` precedes it in map
iteration order and the loop panics there. -/
theorem extra_keys_claim_counterexample :
    Part.deserialize (Json.obj [("fileData", Json.num 5), ("text", Json.str "hi")]) =
      Except.error (.panic "called Option::unwrap on a None value") := rfl

/-- C9 amended: keys outside the five discriminators never cause failure —
decoding an object equals decoding only its discriminator-keyed entries
(first conjunct, which needs no hypotheses), and an object whose
discriminator-keyed entries are all well formed and include at least one
key decodes to a `Part` variant however many unrecognized keys it
carries.  The well-formedness must cover every discriminator-keyed entry:
a malformed recognized key ahead of the well-formed one still panics, as
the counterexample shows. -/
theorem unrecognized_keys_are_skipped (fields : List (String × Json))
    (hwf : ∀ e ∈ fields, isDiscriminatorKey e.1 = true → decodeKeyOk e.1 e.2 = true)
    (hex : ∃ e ∈ fields, isDiscriminatorKey e.1 = true) :
    Part.deserialize (Json.obj fields) =
      Part.deserialize (Json.obj (fields.filter (fun e => isDiscriminatorKey e.1))) ∧
    ∃ p, Part.deserialize (Json.obj fields) = Except.ok p :=
  ⟨deserializeFields_filter fields, deserializeFields_ok fields hwf hex⟩

/-- Witness for the amended C9: an object with one well-formed `"text"`
entry surrounded by unrecognized keys decodes to a variant. -/
theorem unrecognized_keys_are_skipped_witness :
    ∃ p, Part.deserialize (Json.obj [("aaa", Json.null), ("text", Json.str "hi"),
        ("zzz", Json.arr [])]) = Except.ok p :=
  (unrecognized_keys_are_skipped
    [("aaa", Json.null), ("text", Json.str "hi"), ("zzz", Json.arr [])]
    (by decide) (by decide)).2

/-- C2: the stream loop does NOT reassemble frames across chunk
boundaries, and decodes nothing at all.  Feeding the two chunks
`'\x7b"candidates":[]\x7d\n'` and `'\n'` (claimed to yield exactly one decoded
`StreamEvent`) makes the loop print the two raw fragments unchanged —
each chunk is split on `"\n\n"` by itself, so the delimiter straddling
the boundary is never seen — while the same bytes in a single chunk
split into the event payload and an empty fragment: the fragment
sequence depends on where the chunk boundaries fall.  In both cases the
sequence of decoded `StreamEvent`s is empty, not a single event. -/
theorem stream_split_is_per_chunk_and_decodes_nothing :
    generate_content_stream_printed
        ["\x7b\"candidates\":[]\x7d\n".toList, "\n".toList] =
      ["\x7b\"candidates\":[]\x7d\n".toList, "\n".toList] ∧
    generate_content_stream_printed ["\x7b\"candidates\":[]\x7d\n\n".toList] =
      ["\x7b\"candidates\":[]\x7d".toList, []] ∧
    generate_content_stream_events
        ["\x7b\"candidates\":[]\x7d\n".toList, "\n".toList] = [] ∧
    generate_content_stream_events ["\x7b\"candidates\":[]\x7d\n\n".toList] = [] :=
  ⟨by decide, by decide, rfl, rfl⟩

/-- C7: when the transport signals end-of-data with an incomplete JSON
document in the last chunk, `generate_content_stream` reports no
`TruncatedStream`-like error: the fragment is passed to `dbg!` like any
other, zero events are decoded, and the function returns `Ok(())`. -/
theorem truncated_stream_not_reported :
    generate_content_stream_printed ["\x7b\"candi".toList] = ["\x7b\"candi".toList] ∧
    generate_content_stream_events ["\x7b\"candi".toList] = [] ∧
    generate_content_stream_return ["\x7b\"candi".toList] = Except.ok () :=
  ⟨by decide, rfl, rfl⟩

/-- C8: `GenerativeModel::new` prefixes the model name with `"models/"`
exactly when the given name contains no `'/'`, stores it unchanged
otherwise, and stores every other parameter unchanged, with the request
options defaulting when absent. -/
theorem new_stores_params (api_key : String) (params : ModelParams)
    (opts : Option RequestOptions) :
    (strContainsChar params.model '/' = false →
      (GenerativeModel.new api_key params opts).model = "models/" ++ params.model) ∧
    (strContainsChar params.model '/' = true →
      (GenerativeModel.new api_key params opts).model = params.model) ∧
    (GenerativeModel.new api_key params opts).api_key = api_key ∧
    (GenerativeModel.new api_key params opts).generation_config = params.generation_config ∧
    (GenerativeModel.new api_key params opts).safety_settings = params.safety_settings ∧
    (GenerativeModel.new api_key params opts).tools = params.tools ∧
    (GenerativeModel.new api_key params opts).tool_config = params.tool_config ∧
    (GenerativeModel.new api_key params opts).system_instruction = params.system_instruction ∧
    (GenerativeModel.new api_key params opts).cached_content = params.cached_content ∧
    (GenerativeModel.new api_key params opts).request_options =
      opts.getD RequestOptions.default := by
  refine ⟨fun h => ?_, fun h => ?_, rfl, rfl, rfl, rfl, rfl, rfl, rfl, rfl⟩ <;>
    simp [GenerativeModel.new, h]

/-- Witness for C8 on concrete inputs: a bare model name is prefixed, a
name already containing a slash is kept. -/
theorem new_stores_params_witness :
    (GenerativeModel.new "key" (ModelParams.new "gemini-pro") none).model =
      "models/gemini-pro" ∧
    (GenerativeModel.new "key" (ModelParams.new "tunedModels/abc") none).model =
      "tunedModels/abc" :=
  ⟨(new_stores_params "key" (ModelParams.new "gemini-pro") none).1 (by decide),
    (new_stores_params "key" (ModelParams.new "tunedModels/abc") none).2.1 (by decide)⟩

/-- C10: `_prepare_request` builds a request whose `contents` is exactly
one user-role `Content` carrying the given parts in order, every other
field copied from the model.  The Rust function takes `&self` and only
clones its fields, so the model itself cannot change; in this pure
embedding the model is an unmodified input. -/
theorem prepare_request_fields (m : GenerativeModel) (requests : List Part) :
    (m._prepare_request requests).contents =
      [{ role := Role.User, parts := requests }] ∧
    (m._prepare_request requests).model = m.model ∧
    (m._prepare_request requests).generation_config = m.generation_config ∧
    (m._prepare_request requests).safety_settings = m.safety_settings ∧
    (m._prepare_request requests).tools = m.tools ∧
    (m._prepare_request requests).tool_config = m.tool_config ∧
    (m._prepare_request requests).system_instruction = m.system_instruction ∧
    (m._prepare_request requests).cached_content = m.cached_content :=
  ⟨rfl, rfl, rfl, rfl, rfl, rfl, rfl, rfl⟩

end GenAI
